import Mathlib

/-!
Shallow embedding of the payment routing and retry engine of the
`rinha2025` backend (`src/backend/src`): the per-processor circuit
breaker, the request executor with retries (`payments.ts`), the retry
queue (`queue.ts`) and the settlement ledger (`summary.ts`), together
with theorems checking the specification's sentences against these
definitions.

Times are modelled as `Int` epoch milliseconds (JavaScript `Date.now()`
values and their differences).  Network effects are modelled by explicit
oracles: a health probe is an `Option Bool` (`none` = the probe promise
rejected or timed out), and a `fetch` call at attempt `i` yields
`oracle i : FetchOutcome`.
-/

namespace Rinha2025

/-! ### Constants (payments.ts lines 67-71, queue.ts lines 27-35) -/

def HEALTH_TTL : Int := 5000

def CIRCUIT_BREAKER_THRESHOLD : Nat := 20

def CIRCUIT_BREAKER_TIMEOUT : Int := 10000

def MAX_RETRIES : Nat := 2

def QUEUE_MAX_SIZE : Nat := 5000

def QUEUE_MAX_RETRIES : Nat := 3

def QUEUE_INITIAL_DELAY : Int := 2000

def QUEUE_MAX_DELAY : Int := 60000

def QUEUE_BACKOFF_MULTIPLIER : Int := 2

/-! ### Circuit breaker (payments.ts lines 61-103) -/

/-- `ProcessorStats` from payments.ts: per-processor breaker state. -/
structure ProcessorStats where
  failures : Nat
  lastFailure : Int
  circuitOpen : Bool
deriving Repr, DecidableEq

/-- Initial value of `processor1Stats` / `processor2Stats` (payments.ts lines 74-75). -/
def initStats : ProcessorStats := ⟨0, 0, false⟩

/-- `isCircuitOpen` (payments.ts lines 77-89).  Returns the reported value
together with the (possibly self-healed) mutated stats. -/
def isCircuitOpen (now : Int) (s : ProcessorStats) : Bool × ProcessorStats :=
  if s.circuitOpen = false then (false, s)
  else if CIRCUIT_BREAKER_TIMEOUT < now - s.lastFailure then
    (false, { s with circuitOpen := false, failures := 0 })
  else (true, s)

/-- `recordFailure` (payments.ts lines 91-98): increment the counter, stamp
the failure time, and open the circuit if the incremented counter has
reached the threshold. -/
def recordFailure (now : Int) (s : ProcessorStats) : ProcessorStats :=
  if CIRCUIT_BREAKER_THRESHOLD ≤ s.failures + 1 then
    { s with failures := s.failures + 1, lastFailure := now, circuitOpen := true }
  else
    { s with failures := s.failures + 1, lastFailure := now }

/-- `recordSucces` (payments.ts lines 100-103; the source spells it without the final s). -/
def recordSucces (s : ProcessorStats) : ProcessorStats :=
  { s with failures := 0, circuitOpen := false }

/-- The operations that touch a processor's breaker state. -/
inductive BreakerEvent
  | failure (now : Int)
  | success
  | check (now : Int)
deriving Repr, DecidableEq

/-- One breaker operation applied to the state. -/
def breakerStep (s : ProcessorStats) : BreakerEvent → ProcessorStats
  | .failure now => recordFailure now s
  | .success => recordSucces s
  | .check now => (isCircuitOpen now s).2

/-- The breaker state after a sequence of operations, starting from the
module-initial state. -/
def breakerRun (evs : List BreakerEvent) : ProcessorStats :=
  evs.foldl breakerStep initStats

/-- Reachable-state invariant of the breaker: the failure counter is below
the threshold exactly while the circuit is closed. -/
def BreakerInv (s : ProcessorStats) : Prop :=
  (s.circuitOpen = false → s.failures < CIRCUIT_BREAKER_THRESHOLD) ∧
  (s.circuitOpen = true → CIRCUIT_BREAKER_THRESHOLD ≤ s.failures)

/-! ### Request executor (payments.ts lines 152-211, queue.ts lines 48-82)

A `fetch` call either resolves to a response with a status code and a
body, or throws (network error, or the `AbortController` timeout). -/

inductive FetchOutcome
  | resp (status : Nat) (body : String)
  | netError
deriving Repr, DecidableEq

/-- Observable outcome of `makeRequest`: the returned record, the final
breaker state, and the executor's bookkeeping — how many fetch attempts
were made, which backoff sleeps were performed (ms, in order), and at which
attempt indices `recordFailure` was invoked. -/
structure MakeRequestResult where
  success : Bool
  response : Option String
  status : Option Nat
  stats : ProcessorStats
  attemptsMade : Nat
  delays : List Int
  failuresRecordedAt : List Nat
deriving Repr, DecidableEq

/-- The retry loop of `makeRequest` (payments.ts lines 166-208), over the
list of remaining attempt indices (the for-loop runs
`attempt = 0, ..., MAX_RETRIES`).  A 2xx response (`resp.ok`) and any
response below 500 other than 2xx return success; a 5xx response
continues the loop with no sleep; a thrown fetch sleeps
`1000 * (attempt + 1)` ms when the attempt is not the last.
`recordFailure` runs only when `attempt = MAX_RETRIES`. -/
def makeRequestAux (oracle : Nat → FetchOutcome) (now : Int) :
    List Nat → ProcessorStats → Nat → List Int → List Nat → MakeRequestResult
  | [], stats, made, delays, frs => ⟨false, none, none, stats, made, delays, frs⟩
  | attempt :: rest, stats, made, delays, frs =>
    match oracle attempt with
    | .resp st body =>
      if 200 ≤ st ∧ st < 300 then
        ⟨true, some body, some st, recordSucces stats, made + 1, delays, frs⟩
      else if 500 ≤ st then
        let stats1 := if attempt = MAX_RETRIES then recordFailure now stats else stats
        let frs1 := if attempt = MAX_RETRIES then frs ++ [attempt] else frs
        makeRequestAux oracle now rest stats1 (made + 1) delays frs1
      else
        ⟨true, some body, some st, recordSucces stats, made + 1, delays, frs⟩
    | .netError =>
      let stats1 := if attempt = MAX_RETRIES then recordFailure now stats else stats
      let frs1 := if attempt = MAX_RETRIES then frs ++ [attempt] else frs
      let delays1 :=
        if attempt < MAX_RETRIES then delays ++ [1000 * ((attempt : Int) + 1)] else delays
      makeRequestAux oracle now rest stats1 (made + 1) delays1 frs1

/-- `makeRequest` (payments.ts lines 153-211): skip entirely when the
circuit is open, otherwise run the retry loop over attempts
`0, ..., MAX_RETRIES`. -/
def makeRequest (oracle : Nat → FetchOutcome) (now : Int) (stats : ProcessorStats) :
    MakeRequestResult :=
  let c := isCircuitOpen now stats
  if c.1 then ⟨false, none, none, c.2, 0, [], []⟩
  else makeRequestAux oracle now (List.range (MAX_RETRIES + 1)) c.2 0 [] []

/-- An attempt outcome that `makeRequest` / `makeQueueRequest` treat as a
failure: a thrown fetch, or a 5xx response. -/
def attemptFails : FetchOutcome → Prop
  | .resp st _ => 500 ≤ st
  | .netError => True

instance (o : FetchOutcome) : Decidable (attemptFails o) := by
  cases o with
  | resp st body => exact inferInstanceAs (Decidable (500 ≤ st))
  | netError => exact inferInstanceAs (Decidable True)

/-- Result of `makeQueueRequest` (queue.ts lines 49-82): the queue's
single-attempt request helper, with no breaker bookkeeping. -/
structure QueueRequestResult where
  success : Bool
  response : Option String
  status : Option Nat
deriving Repr, DecidableEq

/-- `makeQueueRequest` (queue.ts lines 49-82): a 2xx or a non-5xx
non-2xx response is success; a 5xx or a thrown fetch is failure. -/
def makeQueueRequest (outcome : FetchOutcome) : QueueRequestResult :=
  match outcome with
  | .resp st body =>
    if 200 ≤ st ∧ st < 300 then ⟨true, some body, some st⟩
    else if 500 ≤ st then ⟨false, none, none⟩
    else ⟨true, some body, some st⟩
  | .netError => ⟨false, none, none⟩

/-! ### Settlement ledger (summary.ts lines 20-42)

The Redis store is modelled as an association list from keys to hash
records; `redis.exists` is a key lookup and `redis.hset` prepends the
record. -/

structure SettlementRec where
  processor : String
  amount : Int
  correlationId : Option String
  timestamp : Int
deriving Repr, DecidableEq

abbrev Ledger := List (String × SettlementRec)

/-- The Redis key `payment:${correlationId}`.  When the caller omits the
`correlationId` argument (modelled as `none`), the JavaScript template
literal stringifies `undefined`, producing the key `payment:undefined`. -/
def correlationKey : Option String → String
  | some c => "payment:" ++ c
  | none => "payment:undefined"

/-- `registerPayment` (summary.ts lines 20-42): if a record keyed by the
correlationId already exists the call is a no-op, otherwise the settlement
hash is written under that key. -/
def registerPayment (processor : String) (amount : Int)
    (correlationId : Option String) (now : Int) (ledger : Ledger) : Ledger :=
  let key := correlationKey correlationId
  if (ledger.lookup key).isSome then ledger
  else (key, ⟨processor, amount, correlationId, now⟩) :: ledger

/-! ### Retry queue (queue.ts) -/

/-- `QueuedPayment` (queue.ts lines 9-17). -/
structure QueuedPayment where
  id : String
  correlationId : String
  amount : Int
  attempts : Nat
  lastAttempt : Int
  maxRetries : Nat
  delay : Int
  originalRequestTime : Int
  requestedAt : String
deriving Repr, DecidableEq

/-- `QueueStats` (queue.ts lines 19-24). -/
structure QueueStats where
  queued : Nat
  processed : Nat
  failed : Nat
  retries : Nat
deriving Repr, DecidableEq

/-- The queue module's mutable state (queue.ts lines 37-46). -/
structure QueueState where
  paymentQueue : List QueuedPayment
  queueProcessorRunning : Bool
  lastQueueActivity : Int
  queueStats : QueueStats
deriving Repr, DecidableEq

/-- `queuePayment` (queue.ts lines 85-111): reject with a capacity error
when the queue already holds `QUEUE_MAX_SIZE` items (the throw happens
before any mutation, so the state is returned unchanged); otherwise append
the new item, bump the `queued` counter, refresh the activity stamp, and
ensure the background processor is running.  `genId` stands for the
generated `payment_${Date.now()}_${random}` id. -/
def queuePayment (now : Int) (nowIso : String) (genId : String)
    (correlationId : String) (amount : Int) (st : QueueState) :
    Except String String × QueueState :=
  if QUEUE_MAX_SIZE ≤ st.paymentQueue.length then
    (.error "Payment queue is full", st)
  else
    let qp : QueuedPayment :=
      { id := genId, correlationId := correlationId, amount := amount,
        attempts := 0, lastAttempt := 0, maxRetries := QUEUE_MAX_RETRIES,
        delay := QUEUE_INITIAL_DELAY, originalRequestTime := now, requestedAt := nowIso }
    (.ok genId,
      { paymentQueue := st.paymentQueue ++ [qp],
        queueProcessorRunning := true,
        lastQueueActivity := now,
        queueStats := { st.queueStats with queued := st.queueStats.queued + 1 } })

/-- The `'default' | 'fallback'` processor tag of queue.ts. -/
inductive ProcType
  | pdefault
  | pfallback
deriving Repr, DecidableEq

def processorName : ProcType → String
  | .pdefault => "default"
  | .pfallback => "fallback"

/-- The `processorsToTry` priority list (queue.ts lines 134-162): healthy
processors in default-before-fallback order; both of them, in the same
order, when neither is healthy. -/
def processorsToTry (p1 p2 : Bool) : List ProcType :=
  let l := (if p1 then [ProcType.pdefault] else []) ++
           (if p2 then [ProcType.pfallback] else [])
  if l.isEmpty then [ProcType.pdefault, ProcType.pfallback] else l

/-- Observable outcome of one `processQueuedPayment` call: the returned
remove-from-queue flag, the (mutated-in-place) item, the queue counters,
and the ledger. -/
structure ProcessOutcome where
  shouldRemove : Bool
  payment : QueuedPayment
  stats : QueueStats
  ledger : Ledger
deriving Repr, DecidableEq

/-- The processor trial loop of `processQueuedPayment` (queue.ts lines
165-191): `request proc` is the success flag of `makeQueueRequest` against
that processor this cycle; on the first success the `processed` counter is
bumped and `registerPayment(processor.type, payment.amount)` is attempted
— with the `correlationId` argument omitted at the call site, hence `none`
— inside a try/catch that swallows a ledger failure (`ledgerWriteOk =
false`), and the item is reported as to-remove either way.  `none` means
every tried processor failed. -/
def tryProcessors (request : ProcType → Bool) (ledgerWriteOk : Bool) (now : Int)
    (p : QueuedPayment) (qs : QueueStats) (ledger : Ledger) :
    List ProcType → Option ProcessOutcome
  | [] => none
  | proc :: rest =>
    if request proc then
      some ⟨true, p,
        { qs with processed := qs.processed + 1 },
        if ledgerWriteOk then
          registerPayment (processorName proc) p.amount none now ledger
        else ledger⟩
    else tryProcessors request ledgerWriteOk now p qs ledger rest

/-- `processQueuedPayment` (queue.ts lines 114-210): skip while the delay
gate `now - lastAttempt < delay` holds; otherwise bump `attempts`, stamp
`lastAttempt`, try the processors in priority order; when all fail, either
drop the item permanently (`attempts >= maxRetries`, bumping `failed`) or
double the delay up to `QUEUE_MAX_DELAY` and keep it queued (bumping
`retries`). -/
def processQueuedPayment (now : Int) (health : Bool × Bool)
    (request : ProcType → Bool) (ledgerWriteOk : Bool)
    (p : QueuedPayment) (qs : QueueStats) (ledger : Ledger) : ProcessOutcome :=
  if now - p.lastAttempt < p.delay then ⟨false, p, qs, ledger⟩
  else
    let p1 : QueuedPayment := { p with attempts := p.attempts + 1, lastAttempt := now }
    match tryProcessors request ledgerWriteOk now p1 qs ledger
        (processorsToTry health.1 health.2) with
    | some out => out
    | none =>
      if p1.maxRetries ≤ p1.attempts then
        ⟨true, p1, { qs with failed := qs.failed + 1 }, ledger⟩
      else
        ⟨false,
          { p1 with delay := min (p1.delay * QUEUE_BACKOFF_MULTIPLIER) QUEUE_MAX_DELAY },
          { qs with retries := qs.retries + 1 }, ledger⟩

/-- Repeated drain cycles for a single queued item, each run at the first
instant its delay gate passes (`lastAttempt + delay`).  This mirrors the
background loop (queue.ts lines 269-284), which keeps re-running
`processQueuedPayment` on the item and removes it from the queue exactly
when the call returns `true`; after removal no further cycle touches it. -/
def runRetryCycles (health : Bool × Bool) (request : ProcType → Bool)
    (ledgerWriteOk : Bool) :
    Nat → QueuedPayment → QueueStats → Ledger → ProcessOutcome
  | 0, p, qs, ledger => ⟨false, p, qs, ledger⟩
  | n + 1, p, qs, ledger =>
    let r := processQueuedPayment (p.lastAttempt + p.delay) health request
      ledgerWriteOk p qs ledger
    if r.shouldRemove then r
    else runRetryCycles health request ledgerWriteOk n r.payment r.stats r.ledger

/-! ### Health tracker (payments.ts lines 55-59 and 105-150) -/

/-- `HealthCache` (payments.ts lines 55-59). -/
structure HealthCache where
  last : Int
  p1 : Bool
  p2 : Bool
deriving Repr, DecidableEq

/-- Initial `healthCache` (payments.ts line 73). -/
def initHealthCache : HealthCache := ⟨0, false, false⟩

/-- Observable outcome of `getHealth`: the returned pair, the new cache,
the (possibly self-healed) breaker states, and whether the processors were
actually probed. -/
structure HealthOutcome where
  p1 : Bool
  p2 : Bool
  cache : HealthCache
  stats1 : ProcessorStats
  stats2 : ProcessorStats
  probed : Bool
deriving Repr, DecidableEq

/-- `getHealth` (payments.ts lines 105-150).  `probe1`/`probe2` are the
settled results of each health check raced against its 2-second timeout:
`some h` when fulfilled with `{healthy: h}`, `none` when it rejected
(probe error or timeout).  Within the TTL the cached pair is returned with
nothing probed; otherwise each processor's reported health is its raw
probe result AND NOT its circuit being open (`&&` short-circuits, so the
breaker is only consulted when the raw probe succeeded), and the cache is
refreshed.  `Promise.allSettled` never rejects, so the catch branch of the
source is unreachable. -/
def getHealth (now : Int) (cache : HealthCache) (stats1 stats2 : ProcessorStats)
    (probe1 probe2 : Option Bool) : HealthOutcome :=
  if now - cache.last < HEALTH_TTL then
    ⟨cache.p1, cache.p2, cache, stats1, stats2, false⟩
  else
    let r1 : Bool × ProcessorStats :=
      if probe1.getD false then
        let c1 := isCircuitOpen now stats1
        (!c1.1, c1.2)
      else (false, stats1)
    let r2 : Bool × ProcessorStats :=
      if probe2.getD false then
        let c2 := isCircuitOpen now stats2
        (!c2.1, c2.2)
      else (false, stats2)
    ⟨r1.1, r2.1, ⟨now, r1.1, r2.1⟩, r1.2, r2.2, true⟩

/-! ### POST /payments handler (payments.ts lines 262-335) -/

/-- The JSON bodies the handler can reply with. -/
inductive ReplyBody
  | downstream (body : Option String)
  | queued (correlationId queueId : String)
  | overloaded (correlationId : String)
  | queueFullError (correlationId : String)
deriving Repr, DecidableEq

/-- The module-level mutable state the handler touches. -/
structure AppState where
  healthCache : HealthCache
  processor1Stats : ProcessorStats
  processor2Stats : ProcessorStats
  queue : QueueState
  ledger : Ledger
deriving Repr, DecidableEq

/-- `result.status || 200`: a falsy JavaScript status (0 or undefined)
falls back to 200. -/
def statusOrDefault : Option Nat → Nat
  | some st => if st = 0 then 200 else st
  | none => 200

structure HandlerOutput where
  code : Nat
  body : ReplyBody
  state : AppState
deriving Repr, DecidableEq

/-- The `POST /payments` handler (payments.ts lines 262-335): read health;
reject 500 when both processors are unhealthy and the queue is full; try
processor 1 when healthy, then processor 2, replying with the downstream
status (`result.status || 200`) and body and registering the settlement —
the source calls `registerPayment('default'|'fallback', amount)` without
the `correlationId` argument, modelled by passing `none`; otherwise
enqueue, replying `200 {correlationId, queueId, status:"queued"}`, or 500
when `queuePayment` throws on a full queue. -/
def paymentsPost (now : Int) (requestedAt : String) (probe1 probe2 : Option Bool)
    (oracle1 oracle2 : Nat → FetchOutcome) (genId : String)
    (correlationId : String) (amount : Int) (st0 : AppState) : HandlerOutput :=
  let g := getHealth now st0.healthCache st0.processor1Stats st0.processor2Stats
    probe1 probe2
  let st1 : AppState :=
    { st0 with healthCache := g.cache, processor1Stats := g.stats1,
               processor2Stats := g.stats2 }
  if g.p1 = false ∧ g.p2 = false ∧ QUEUE_MAX_SIZE ≤ st1.queue.paymentQueue.length then
    ⟨500, .overloaded correlationId, st1⟩
  else
    let r1 := makeRequest oracle1 now st1.processor1Stats
    if g.p1 && r1.success then
      ⟨statusOrDefault r1.status, .downstream r1.response,
        { st1 with processor1Stats := r1.stats,
                   ledger := registerPayment "default" amount none now st1.ledger }⟩
    else
      let st2 : AppState := if g.p1 then { st1 with processor1Stats := r1.stats } else st1
      let r2 := makeRequest oracle2 now st2.processor2Stats
      if g.p2 && r2.success then
        ⟨statusOrDefault r2.status, .downstream r2.response,
          { st2 with processor2Stats := r2.stats,
                     ledger := registerPayment "fallback" amount none now st2.ledger }⟩
      else
        let st3 : AppState := if g.p2 then { st2 with processor2Stats := r2.stats } else st2
        let q := queuePayment now requestedAt genId correlationId amount st3.queue
        match q.1 with
        | .ok qid => ⟨200, .queued correlationId qid, { st3 with queue := q.2 }⟩
        | .error _ => ⟨500, .queueFullError correlationId, { st3 with queue := q.2 }⟩

/-! ## Theorems -/

lemma breakerInv_init : BreakerInv initStats := by
  constructor <;> intro h <;> simp [initStats, CIRCUIT_BREAKER_THRESHOLD] at *

lemma breakerInv_step (s : ProcessorStats) (e : BreakerEvent) (h : BreakerInv s) :
    BreakerInv (breakerStep s e) := by
  obtain ⟨hc, ho⟩ := h
  cases e with
  | failure now =>
    unfold BreakerInv breakerStep recordFailure
    by_cases hth : CIRCUIT_BREAKER_THRESHOLD ≤ s.failures + 1
    · simp [hth]
    · simp only [hth, if_false]
      refine ⟨fun _ => ?_, fun hopen' => ?_⟩
      · show s.failures + 1 < CIRCUIT_BREAKER_THRESHOLD
        omega
      · have hopen : s.circuitOpen = true := hopen'
        have := ho hopen
        omega
  | success =>
    simp [breakerStep, recordSucces, BreakerInv, CIRCUIT_BREAKER_THRESHOLD]
  | check now =>
    simp only [breakerStep, isCircuitOpen]
    by_cases hop : s.circuitOpen = false
    · simpa [hop] using ⟨hc, ho⟩
    · by_cases htime : CIRCUIT_BREAKER_TIMEOUT < now - s.lastFailure
      · simp [hop, htime, BreakerInv, CIRCUIT_BREAKER_THRESHOLD]
      · simpa [hop, htime] using ⟨hc, ho⟩

lemma breakerInv_foldl (evs : List BreakerEvent) (s : ProcessorStats) (h : BreakerInv s) :
    BreakerInv (evs.foldl breakerStep s) := by
  induction evs generalizing s with
  | nil => exact h
  | cons e rest ih => exact ih _ (breakerInv_step s e h)

lemma breakerInv_run (evs : List BreakerEvent) : BreakerInv (breakerRun evs) :=
  breakerInv_foldl evs initStats breakerInv_init

/-- C5: the breaker state reachable by any sequence of operations satisfies:
the circuit is open only with `failures ≥ CIRCUIT_BREAKER_THRESHOLD`; from a
closed reachable state `recordFailure` opens the circuit exactly when it
brings the counter to the threshold (20); once the cooldown
`CIRCUIT_BREAKER_TIMEOUT` (10s) has elapsed since the last failure, the
`isCircuitOpen` check reports closed and resets the counter; `recordSucces`
resets the counter to 0 and forces the circuit closed. -/
theorem C5_circuit_breaker (evs : List BreakerEvent) (now : Int)
    (s : ProcessorStats) (hs : s = breakerRun evs) :
    (s.circuitOpen = true → CIRCUIT_BREAKER_THRESHOLD ≤ s.failures) ∧
    (s.circuitOpen = false →
      ((recordFailure now s).circuitOpen = true ↔
        s.failures + 1 = CIRCUIT_BREAKER_THRESHOLD)) ∧
    (s.circuitOpen = true → CIRCUIT_BREAKER_TIMEOUT < now - s.lastFailure →
      isCircuitOpen now s = (false, { s with circuitOpen := false, failures := 0 })) ∧
    ((recordSucces s).failures = 0 ∧ (recordSucces s).circuitOpen = false) := by
  have hinv : BreakerInv s := hs ▸ breakerInv_run evs
  obtain ⟨hc, ho⟩ := hinv
  refine ⟨ho, ?_, ?_, ?_⟩
  · intro hclosed
    have hlt := hc hclosed
    unfold recordFailure
    by_cases hth : CIRCUIT_BREAKER_THRESHOLD ≤ s.failures + 1
    · simp only [hth, if_true]
      constructor
      · intro _; omega
      · intro _; trivial
    · simp only [hth, if_false]
      constructor
      · intro h
        have h' : s.circuitOpen = true := h
        rw [hclosed] at h'
        exact absurd h' (by simp)
      · intro h; omega
  · intro hopen htime
    simp [isCircuitOpen, hopen, htime]
  · exact ⟨rfl, rfl⟩

/-- Witness for C5 at the concrete reachable state after 19 failures. -/
theorem C5_circuit_breaker_witness :
    let s := breakerRun (List.replicate 19 (BreakerEvent.failure 0))
    (s.circuitOpen = true → CIRCUIT_BREAKER_THRESHOLD ≤ s.failures) ∧
    (s.circuitOpen = false →
      ((recordFailure 5 s).circuitOpen = true ↔
        s.failures + 1 = CIRCUIT_BREAKER_THRESHOLD)) ∧
    (s.circuitOpen = true → CIRCUIT_BREAKER_TIMEOUT < 5 - s.lastFailure →
      isCircuitOpen 5 s = (false, { s with circuitOpen := false, failures := 0 })) ∧
    ((recordSucces s).failures = 0 ∧ (recordSucces s).circuitOpen = false) :=
  C5_circuit_breaker (List.replicate 19 (BreakerEvent.failure 0)) 5 _ rfl

lemma recordSucces_isCircuitOpen (now : Int) (s : ProcessorStats) :
    recordSucces (isCircuitOpen now s).2 = recordSucces s := by
  unfold isCircuitOpen
  by_cases hop : s.circuitOpen = false
  · simp [hop]
  · by_cases htime : CIRCUIT_BREAKER_TIMEOUT < now - s.lastFailure
    · simp [hop, htime, recordSucces]
    · simp [hop, htime]

lemma makeRequestAux_fail_step (oracle : Nat → FetchOutcome) (now : Int)
    (attempt : Nat) (rest : List Nat) (stats : ProcessorStats)
    (made : Nat) (delays : List Int) (frs : List Nat)
    (hf : attemptFails (oracle attempt)) :
    makeRequestAux oracle now (attempt :: rest) stats made delays frs =
      makeRequestAux oracle now rest
        (if attempt = MAX_RETRIES then recordFailure now stats else stats)
        (made + 1)
        (if oracle attempt = FetchOutcome.netError ∧ attempt < MAX_RETRIES
          then delays ++ [1000 * ((attempt : Int) + 1)] else delays)
        (if attempt = MAX_RETRIES then frs ++ [attempt] else frs) := by
  rcases ho : oracle attempt with ⟨st, body⟩ | _
  · rw [ho] at hf
    simp only [attemptFails] at hf
    have hn : ¬(200 ≤ st ∧ st < 300) := by omega
    simp [makeRequestAux, ho, hn, hf]
  · simp [makeRequestAux, ho]

/-- C6 (amended): when the circuit is closed and every attempt fails (5xx
or thrown fetch), `makeRequest` makes exactly `MAX_RETRIES + 1 = 3` fetch
attempts, records a breaker failure only at the final attempt, and sleeps
`1000 * (attempt + 1)` ms only after a non-final attempt that threw (network
error/timeout); a non-final 5xx response is retried with no delay. -/
theorem C6_retry_policy (oracle : Nat → FetchOutcome) (now : Int) (stats : ProcessorStats)
    (hclosed : (isCircuitOpen now stats).1 = false)
    (hfail : ∀ i, i ≤ MAX_RETRIES → attemptFails (oracle i)) :
    (makeRequest oracle now stats).success = false ∧
    (makeRequest oracle now stats).attemptsMade = MAX_RETRIES + 1 ∧
    (makeRequest oracle now stats).failuresRecordedAt = [MAX_RETRIES] ∧
    (makeRequest oracle now stats).stats = recordFailure now (isCircuitOpen now stats).2 ∧
    (makeRequest oracle now stats).delays =
      ((if oracle 0 = FetchOutcome.netError then [(1000 : Int)] else []) ++
       (if oracle 1 = FetchOutcome.netError then [(2000 : Int)] else [])) := by
  have h0 := hfail 0 (by simp [MAX_RETRIES])
  have h1 := hfail 1 (by simp [MAX_RETRIES])
  have h2 := hfail 2 (by simp [MAX_RETRIES])
  have hrange : List.range (MAX_RETRIES + 1) = [0, 1, 2] := rfl
  have hmk : makeRequest oracle now stats =
      makeRequestAux oracle now [0, 1, 2] (isCircuitOpen now stats).2 0 [] [] := by
    simp [makeRequest, hclosed, hrange]
  rw [hmk,
    makeRequestAux_fail_step oracle now 0 [1, 2] _ _ _ _ h0,
    makeRequestAux_fail_step oracle now 1 [2] _ _ _ _ h1,
    makeRequestAux_fail_step oracle now 2 [] _ _ _ _ h2]
  simp only [makeRequestAux, MAX_RETRIES]
  norm_num
  rcases ho0 : oracle 0 with ⟨st0, b0⟩ | _ <;> rcases ho1 : oracle 1 with ⟨st1, b1⟩ | _ <;>
    simp [ho0, ho1]

/-- Witness for C6 at the all-network-error oracle from the initial
breaker state. -/
theorem C6_retry_policy_witness :
    (makeRequest (fun _ => FetchOutcome.netError) 0 initStats).success = false ∧
    (makeRequest (fun _ => FetchOutcome.netError) 0 initStats).attemptsMade = 3 ∧
    (makeRequest (fun _ => FetchOutcome.netError) 0 initStats).failuresRecordedAt = [2] ∧
    (makeRequest (fun _ => FetchOutcome.netError) 0 initStats).stats =
      ⟨1, 0, false⟩ ∧
    (makeRequest (fun _ => FetchOutcome.netError) 0 initStats).delays = [1000, 2000] := by
  have h := C6_retry_policy (fun _ => FetchOutcome.netError) 0 initStats rfl
    (fun i _ => trivial)
  simpa [MAX_RETRIES, recordFailure, isCircuitOpen, initStats,
    CIRCUIT_BREAKER_THRESHOLD] using h

/-- C6 counterexample to the claim as stated: with every attempt answered
by a 5xx response, all three attempts are made with no backoff delay at
all between them, contradicting "retried ... with increasing exponential
backoff delay between attempts". -/
theorem C6_counterexample :
    (makeRequest (fun _ => FetchOutcome.resp 500 "err") 0 initStats).attemptsMade = 3 ∧
    (makeRequest (fun _ => FetchOutcome.resp 500 "err") 0 initStats).success = false ∧
    (makeRequest (fun _ => FetchOutcome.resp 500 "err") 0 initStats).delays = [] := by
  refine ⟨rfl, rfl, rfl⟩

/-- C7: a 4xx client-error response on the first attempt makes the
executor return success immediately — one single fetch attempt, no delays,
no breaker failure recorded — and the queue's request helper likewise
treats a 4xx as success. -/
theorem C7_client_error_terminal (oracle : Nat → FetchOutcome) (now : Int)
    (stats : ProcessorStats) (st : Nat) (body : String)
    (hclosed : (isCircuitOpen now stats).1 = false)
    (hst : 400 ≤ st ∧ st < 500)
    (h0 : oracle 0 = FetchOutcome.resp st body) :
    makeRequest oracle now stats =
      ⟨true, some body, some st, recordSucces stats, 1, [], []⟩ ∧
    makeQueueRequest (FetchOutcome.resp st body) = ⟨true, some body, some st⟩ := by
  have hn1 : ¬(200 ≤ st ∧ st < 300) := by omega
  have hn2 : ¬(500 ≤ st) := by omega
  have hrange : List.range (MAX_RETRIES + 1) = [0, 1, 2] := rfl
  constructor
  · have hmk : makeRequest oracle now stats =
        makeRequestAux oracle now [0, 1, 2] (isCircuitOpen now stats).2 0 [] [] := by
      simp [makeRequest, hclosed, hrange]
    rw [hmk]
    simp [makeRequestAux, h0, hn1, hn2, recordSucces_isCircuitOpen]
  · simp [makeQueueRequest, hn1, hn2]

/-- Witness for C7 at status 404 from a breaker state with 7 accumulated
failures. -/
theorem C7_client_error_terminal_witness :
    makeRequest (fun _ => FetchOutcome.resp 404 "declined") 0 ⟨7, 0, false⟩ =
      ⟨true, some "declined", some 404, ⟨0, 0, false⟩, 1, [], []⟩ ∧
    makeQueueRequest (FetchOutcome.resp 404 "declined") =
      ⟨true, some "declined", some 404⟩ := by
  have h := C7_client_error_terminal (fun _ => FetchOutcome.resp 404 "declined") 0
    ⟨7, 0, false⟩ 404 "declined" rfl (by omega) rfl
  simpa [recordSucces] using h

/-- C10: a 4xx client-error response invokes `recordSucces`, so the
processor's breaker leaves the call with `failures = 0` and the circuit
closed, erasing all previously accumulated failure history. -/
theorem C10_client_error_resets_breaker (oracle : Nat → FetchOutcome) (now : Int)
    (stats : ProcessorStats) (st : Nat) (body : String)
    (hclosed : (isCircuitOpen now stats).1 = false)
    (hst : 400 ≤ st ∧ st < 500)
    (h0 : oracle 0 = FetchOutcome.resp st body) :
    (makeRequest oracle now stats).stats.failures = 0 ∧
    (makeRequest oracle now stats).stats.circuitOpen = false := by
  have hn1 : ¬(200 ≤ st ∧ st < 300) := by omega
  have hn2 : ¬(500 ≤ st) := by omega
  have hrange : List.range (MAX_RETRIES + 1) = [0, 1, 2] := rfl
  have hmk : makeRequest oracle now stats =
      makeRequestAux oracle now [0, 1, 2] (isCircuitOpen now stats).2 0 [] [] := by
    simp [makeRequest, hclosed, hrange]
  rw [hmk]
  simp [makeRequestAux, h0, hn1, hn2, recordSucces]

/-- Witness for C10: a single 400 response resets a breaker that already
had 19 consecutive failures. -/
theorem C10_client_error_resets_breaker_witness :
    (makeRequest (fun _ => FetchOutcome.resp 400 "bad") 0 ⟨19, 0, false⟩).stats.failures = 0 ∧
    (makeRequest (fun _ => FetchOutcome.resp 400 "bad") 0 ⟨19, 0, false⟩).stats.circuitOpen
      = false :=
  C10_client_error_resets_breaker (fun _ => FetchOutcome.resp 400 "bad") 0
    ⟨19, 0, false⟩ 400 "bad" rfl (by omega) rfl

/-- C8: enqueueing onto a full queue fails deterministically with the
capacity error and leaves the whole queue state — items, statistics
counters and the processor-running flag — unchanged; an enqueue below
capacity always succeeds (and appends exactly one item). -/
theorem C8_queue_capacity (now : Int) (nowIso genId correlationId : String)
    (amount : Int) (st : QueueState) :
    (QUEUE_MAX_SIZE ≤ st.paymentQueue.length →
      queuePayment now nowIso genId correlationId amount st =
        (.error "Payment queue is full", st)) ∧
    (st.paymentQueue.length < QUEUE_MAX_SIZE →
      (queuePayment now nowIso genId correlationId amount st).1 = .ok genId ∧
      ((queuePayment now nowIso genId correlationId amount st).2).paymentQueue.length =
        st.paymentQueue.length + 1) := by
  constructor
  · intro h
    simp [queuePayment, h]
  · intro h
    have h' : ¬ QUEUE_MAX_SIZE ≤ st.paymentQueue.length := by omega
    simp [queuePayment, h']

/-- Witness for C8: a queue of exactly 5000 items rejects without mutation,
and an empty queue accepts. -/
theorem C8_queue_capacity_witness :
    (queuePayment 0 "t" "id1" "c" 5
        ⟨List.replicate 5000 ⟨"q", "c0", 1, 0, 0, 3, 2000, 0, "t"⟩, true, 0, ⟨5000, 0, 0, 0⟩⟩ =
      (.error "Payment queue is full",
        ⟨List.replicate 5000 ⟨"q", "c0", 1, 0, 0, 3, 2000, 0, "t"⟩, true, 0, ⟨5000, 0, 0, 0⟩⟩)) ∧
    ((queuePayment 0 "t" "id1" "c" 5 ⟨[], false, 0, ⟨0, 0, 0, 0⟩⟩).1 = .ok "id1" ∧
      ((queuePayment 0 "t" "id1" "c" 5 ⟨[], false, 0, ⟨0, 0, 0, 0⟩⟩).2).paymentQueue.length =
        0 + 1) :=
  ⟨(C8_queue_capacity 0 "t" "id1" "c" 5 _).1
      (by rw [List.length_replicate]; norm_num [QUEUE_MAX_SIZE]),
   (C8_queue_capacity 0 "t" "id1" "c" 5 _).2 (by norm_num [QUEUE_MAX_SIZE])⟩

lemma tryProcessors_any_success (request : ProcType → Bool) (lw : Bool) (now : Int)
    (p : QueuedPayment) (qs : QueueStats) (ledger : Ledger) (l : List ProcType)
    (h : l.any request = true) :
    ∃ proc, tryProcessors request lw now p qs ledger l =
      some ⟨true, p, { qs with processed := qs.processed + 1 },
        if lw then registerPayment (processorName proc) p.amount none now ledger
        else ledger⟩ := by
  induction l with
  | nil => simp at h
  | cons proc rest ih =>
    by_cases hp : request proc
    · exact ⟨proc, by simp [tryProcessors, hp]⟩
    · have h' : rest.any request = true := by simpa [hp] using h
      obtain ⟨pr, hpr⟩ := ih h'
      exact ⟨pr, by simpa [tryProcessors, hp] using hpr⟩

/-- C2 (amended): when a queued payment's delay gate has passed, some tried
processor succeeds downstream, but the Settlement Ledger write fails, the
queue processor still reports the item as processed: it is removed from
the queue (`shouldRemove = true`), the `processed` counter is bumped, the
ledger is left unchanged, and — since the item is gone — the registration
is never retried on a later cycle. -/
theorem C2_ledger_failure_still_removed (now : Int) (health : Bool × Bool)
    (request : ProcType → Bool) (p : QueuedPayment) (qs : QueueStats) (ledger : Ledger)
    (hgate : p.delay ≤ now - p.lastAttempt)
    (hsucc : (processorsToTry health.1 health.2).any request = true) :
    (processQueuedPayment now health request false p qs ledger).shouldRemove = true ∧
    (processQueuedPayment now health request false p qs ledger).ledger = ledger ∧
    (processQueuedPayment now health request false p qs ledger).stats.processed =
      qs.processed + 1 := by
  have hg : ¬ (now - p.lastAttempt < p.delay) := by omega
  obtain ⟨proc, hpr⟩ := tryProcessors_any_success request false now
    { p with attempts := p.attempts + 1, lastAttempt := now } qs ledger _ hsucc
  simp [processQueuedPayment, hg, hpr]

/-- Witness for C2 at a concrete item whose ledger write fails after a
successful downstream call. -/
theorem C2_ledger_failure_still_removed_witness :
    (processQueuedPayment 2000 (true, true) (fun _ => true) false
      ⟨"q2", "cid", 5, 0, 0, 3, 2000, 0, "t"⟩ ⟨1, 2, 3, 4⟩ []).shouldRemove = true ∧
    (processQueuedPayment 2000 (true, true) (fun _ => true) false
      ⟨"q2", "cid", 5, 0, 0, 3, 2000, 0, "t"⟩ ⟨1, 2, 3, 4⟩ []).ledger = [] ∧
    (processQueuedPayment 2000 (true, true) (fun _ => true) false
      ⟨"q2", "cid", 5, 0, 0, 3, 2000, 0, "t"⟩ ⟨1, 2, 3, 4⟩ []).stats.processed = 2 + 1 :=
  C2_ledger_failure_still_removed 2000 (true, true) (fun _ => true)
    ⟨"q2", "cid", 5, 0, 0, 3, 2000, 0, "t"⟩ ⟨1, 2, 3, 4⟩ [] (by decide) (by decide)

/-- C2 counterexample to the claim as stated: a queued payment whose
downstream attempt succeeds but whose ledger write fails is nevertheless
removed from the queue (the claim says it is kept and the registration
retried on a later cycle), and the ledger stays empty. -/
theorem C2_counterexample :
    (processQueuedPayment 2000 (true, false) (fun _ => true) false
      ⟨"q1", "abc", 10, 0, 0, 3, 2000, 0, "t0"⟩ ⟨0, 0, 0, 0⟩ []).shouldRemove = true ∧
    (processQueuedPayment 2000 (true, false) (fun _ => true) false
      ⟨"q1", "abc", 10, 0, 0, 3, 2000, 0, "t0"⟩ ⟨0, 0, 0, 0⟩ []).ledger = [] :=
  ⟨rfl, rfl⟩

lemma tryProcessors_all_fail (request : ProcType → Bool) (lw : Bool) (now : Int)
    (p : QueuedPayment) (qs : QueueStats) (ledger : Ledger) (l : List ProcType)
    (h : ∀ t, request t = false) :
    tryProcessors request lw now p qs ledger l = none := by
  induction l with
  | nil => rfl
  | cons proc rest ih => simp [tryProcessors, h proc, ih]

lemma processQueuedPayment_all_fail_keep (now : Int) (health : Bool × Bool)
    (request : ProcType → Bool) (lw : Bool)
    (p : QueuedPayment) (qs : QueueStats) (ledger : Ledger)
    (hfail : ∀ t, request t = false) (hgate : p.delay ≤ now - p.lastAttempt)
    (hlt : p.attempts + 1 < p.maxRetries) :
    processQueuedPayment now health request lw p qs ledger =
      ⟨false,
        { p with attempts := p.attempts + 1, lastAttempt := now,
                 delay := min (p.delay * QUEUE_BACKOFF_MULTIPLIER) QUEUE_MAX_DELAY },
        { qs with retries := qs.retries + 1 }, ledger⟩ := by
  have hg : ¬ (now - p.lastAttempt < p.delay) := by omega
  have hm : ¬ (p.maxRetries ≤ p.attempts + 1) := by omega
  simp [processQueuedPayment, hg, hm,
    tryProcessors_all_fail request lw now _ qs ledger _ hfail]

lemma processQueuedPayment_all_fail_drop (now : Int) (health : Bool × Bool)
    (request : ProcType → Bool) (lw : Bool)
    (p : QueuedPayment) (qs : QueueStats) (ledger : Ledger)
    (hfail : ∀ t, request t = false) (hgate : p.delay ≤ now - p.lastAttempt)
    (hge : p.maxRetries ≤ p.attempts + 1) :
    processQueuedPayment now health request lw p qs ledger =
      ⟨true, { p with attempts := p.attempts + 1, lastAttempt := now },
        { qs with failed := qs.failed + 1 }, ledger⟩ := by
  have hg : ¬ (now - p.lastAttempt < p.delay) := by omega
  simp [processQueuedPayment, hg, hge,
    tryProcessors_all_fail request lw now _ qs ledger _ hfail]

lemma runRetryCycles_removed_at (health : Bool × Bool) (request : ProcType → Bool)
    (lw : Bool) (hfail : ∀ t, request t = false) :
    ∀ (n : Nat) (p : QueuedPayment) (qs : QueueStats) (ledger : Ledger),
      p.attempts + n = p.maxRetries → 1 ≤ n →
      (runRetryCycles health request lw n p qs ledger).shouldRemove = true ∧
      (runRetryCycles health request lw n p qs ledger).payment.attempts = p.maxRetries ∧
      (runRetryCycles health request lw n p qs ledger).stats.failed = qs.failed + 1 ∧
      (runRetryCycles health request lw n p qs ledger).ledger = ledger := by
  intro n
  induction n with
  | zero => intro p qs ledger _ hpos; omega
  | succ m ih =>
    intro p qs ledger hn _
    rcases Nat.eq_zero_or_pos m with hm0 | hmpos
    · subst hm0
      have hge : p.maxRetries ≤ p.attempts + 1 := by omega
      have hdrop := processQueuedPayment_all_fail_drop (p.lastAttempt + p.delay)
        health request lw p qs ledger hfail (by omega) hge
      simp [runRetryCycles, hdrop]
      omega
    · have hlt : p.attempts + 1 < p.maxRetries := by omega
      have hkeep := processQueuedPayment_all_fail_keep (p.lastAttempt + p.delay)
        health request lw p qs ledger hfail (by omega) hlt
      have := ih { p with attempts := p.attempts + 1, lastAttempt := p.lastAttempt + p.delay,
                          delay := min (p.delay * QUEUE_BACKOFF_MULTIPLIER) QUEUE_MAX_DELAY }
        { qs with retries := qs.retries + 1 } ledger (by simp; omega) hmpos
      simpa [runRetryCycles, hkeep] using this

lemma runRetryCycles_not_yet (health : Bool × Bool) (request : ProcType → Bool)
    (lw : Bool) (hfail : ∀ t, request t = false) :
    ∀ (k : Nat) (p : QueuedPayment) (qs : QueueStats) (ledger : Ledger),
      p.attempts + k < p.maxRetries →
      (runRetryCycles health request lw k p qs ledger).shouldRemove = false ∧
      (runRetryCycles health request lw k p qs ledger).payment.attempts =
        p.attempts + k := by
  intro k
  induction k with
  | zero => intro p qs ledger _; simp [runRetryCycles]
  | succ m ih =>
    intro p qs ledger hk
    have hlt : p.attempts + 1 < p.maxRetries := by omega
    have hkeep := processQueuedPayment_all_fail_keep (p.lastAttempt + p.delay)
      health request lw p qs ledger hfail (by omega) hlt
    have hrec := ih
      { p with attempts := p.attempts + 1, lastAttempt := p.lastAttempt + p.delay,
               delay := min (p.delay * QUEUE_BACKOFF_MULTIPLIER) QUEUE_MAX_DELAY }
      { qs with retries := qs.retries + 1 } ledger (by simp; omega)
    refine ⟨?_, ?_⟩ <;> simp [runRetryCycles, hkeep, hrec.1, hrec.2]
    omega

lemma runRetryCycles_stable (health : Bool × Bool) (request : ProcType → Bool)
    (lw : Bool) (hfail : ∀ t, request t = false) :
    ∀ (n m : Nat) (p : QueuedPayment) (qs : QueueStats) (ledger : Ledger),
      p.attempts + n = p.maxRetries → 1 ≤ n → n ≤ m →
      runRetryCycles health request lw m p qs ledger =
        runRetryCycles health request lw n p qs ledger := by
  intro n
  induction n with
  | zero => intro m p qs ledger _ hpos _; omega
  | succ j ih =>
    intro m p qs ledger hn _ hm
    obtain ⟨i, rfl⟩ : ∃ i, m = (j + 1) + i := ⟨m - (j + 1), by omega⟩
    rcases Nat.eq_zero_or_pos j with hj0 | hjpos
    · subst hj0
      have hge : p.maxRetries ≤ p.attempts + 1 := by omega
      have hdrop := processQueuedPayment_all_fail_drop (p.lastAttempt + p.delay)
        health request lw p qs ledger hfail (by omega) hge
      cases i with
      | zero => rfl
      | succ i' =>
        show runRetryCycles health request lw (1 + (i' + 1)) p qs ledger = _
        have h1 : 1 + (i' + 1) = (i' + 1) + 1 := by omega
        rw [h1]
        simp [runRetryCycles, hdrop]
    · have hlt : p.attempts + 1 < p.maxRetries := by omega
      have hkeep := processQueuedPayment_all_fail_keep (p.lastAttempt + p.delay)
        health request lw p qs ledger hfail (by omega) hlt
      have h1 : (j + 1) + i = (j + i) + 1 := by omega
      rw [h1]
      simp only [runRetryCycles, hkeep]
      have heq := ih (j + i)
        { p with attempts := p.attempts + 1, lastAttempt := p.lastAttempt + p.delay,
                 delay := min (p.delay * QUEUE_BACKOFF_MULTIPLIER) QUEUE_MAX_DELAY }
        { qs with retries := qs.retries + 1 } ledger (by simp; omega) hjpos (by omega)
      simpa using heq

/-- C3 (amended): a queued item for which every downstream attempt fails is
removed as permanently failed after exactly `maxRetries` total attempts
(the `attempts` counter equals `maxRetries` at removal, the `failed`
counter is bumped, the ledger is untouched), no earlier cycle removes it,
and running any number of further cycles changes nothing — a
`(maxRetries + 1)`-th attempt is never made.  (The claim's
`maxRetries + 1` count does not hold: the initial attempt already counts
toward `maxRetries`.) -/
theorem C3_exhaustion (health : Bool × Bool) (request : ProcType → Bool)
    (lw : Bool) (p : QueuedPayment) (qs : QueueStats) (ledger : Ledger) (n : Nat)
    (hfail : ∀ t, request t = false)
    (hstart : p.attempts = 0) (hn : n = p.maxRetries) (hpos : 1 ≤ n) :
    (runRetryCycles health request lw n p qs ledger).shouldRemove = true ∧
    (runRetryCycles health request lw n p qs ledger).payment.attempts = p.maxRetries ∧
    (runRetryCycles health request lw n p qs ledger).stats.failed = qs.failed + 1 ∧
    (runRetryCycles health request lw n p qs ledger).ledger = ledger ∧
    (∀ k, k < n →
      (runRetryCycles health request lw k p qs ledger).shouldRemove = false ∧
      (runRetryCycles health request lw k p qs ledger).payment.attempts = k) ∧
    (∀ m, n ≤ m →
      runRetryCycles health request lw m p qs ledger =
        runRetryCycles health request lw n p qs ledger) := by
  obtain ⟨h1, h2, h3, h4⟩ := runRetryCycles_removed_at health request lw hfail n p qs ledger
    (by omega) hpos
  refine ⟨h1, h2, h3, h4, ?_, ?_⟩
  · intro k hk
    have := runRetryCycles_not_yet health request lw hfail k p qs ledger (by omega)
    simpa [hstart] using this
  · intro m hm
    exact runRetryCycles_stable health request lw hfail n m p qs ledger (by omega) hpos hm

/-- Witness for C3 at a fresh concrete item with `maxRetries = 3`: removed
on the third cycle with `attempts = 3`, not removed on the second, and a
fifth cycle changes nothing. -/
theorem C3_exhaustion_witness :
    (runRetryCycles (true, false) (fun _ => false) true 3
      ⟨"q3", "c3", 7, 0, 0, 3, 2000, 0, "t"⟩ ⟨0, 0, 0, 0⟩ []).shouldRemove = true ∧
    (runRetryCycles (true, false) (fun _ => false) true 3
      ⟨"q3", "c3", 7, 0, 0, 3, 2000, 0, "t"⟩ ⟨0, 0, 0, 0⟩ []).payment.attempts = 3 ∧
    (runRetryCycles (true, false) (fun _ => false) true 2
      ⟨"q3", "c3", 7, 0, 0, 3, 2000, 0, "t"⟩ ⟨0, 0, 0, 0⟩ []).shouldRemove = false ∧
    runRetryCycles (true, false) (fun _ => false) true 5
      ⟨"q3", "c3", 7, 0, 0, 3, 2000, 0, "t"⟩ ⟨0, 0, 0, 0⟩ [] =
      runRetryCycles (true, false) (fun _ => false) true 3
        ⟨"q3", "c3", 7, 0, 0, 3, 2000, 0, "t"⟩ ⟨0, 0, 0, 0⟩ [] := by
  have h := C3_exhaustion (true, false) (fun _ => false) true
    ⟨"q3", "c3", 7, 0, 0, 3, 2000, 0, "t"⟩ ⟨0, 0, 0, 0⟩ [] 3
    (fun _ => rfl) rfl rfl (by omega)
  exact ⟨h.1, h.2.1, (h.2.2.2.2.1 2 (by omega)).1, h.2.2.2.2.2 5 (by omega)⟩

/-- C3 counterexample to the claim as stated: with `maxRetries = 3` the
item is removed as permanently failed on the cycle that brings `attempts`
to 3 — i.e. after exactly `maxRetries` total attempts, not
`maxRetries + 1` — and a fourth cycle makes no further attempt. -/
theorem C3_counterexample :
    (runRetryCycles (false, false) (fun _ => false) true 3
      ⟨"q4", "c4", 7, 0, 0, 3, 2000, 0, "t"⟩ ⟨0, 0, 0, 0⟩ []).shouldRemove = true ∧
    (runRetryCycles (false, false) (fun _ => false) true 3
      ⟨"q4", "c4", 7, 0, 0, 3, 2000, 0, "t"⟩ ⟨0, 0, 0, 0⟩ []).payment.attempts = 3 ∧
    (runRetryCycles (false, false) (fun _ => false) true 3
      ⟨"q4", "c4", 7, 0, 0, 3, 2000, 0, "t"⟩ ⟨0, 0, 0, 0⟩ []).payment.maxRetries = 3 ∧
    runRetryCycles (false, false) (fun _ => false) true 4
      ⟨"q4", "c4", 7, 0, 0, 3, 2000, 0, "t"⟩ ⟨0, 0, 0, 0⟩ [] =
      runRetryCycles (false, false) (fun _ => false) true 3
        ⟨"q4", "c4", 7, 0, 0, 3, 2000, 0, "t"⟩ ⟨0, 0, 0, 0⟩ [] :=
  ⟨rfl, rfl, rfl, rfl⟩

/-- C9: within the TTL window `getHealth` returns the cached pair with no
probing and no state change; once the TTL has elapsed it probes, reports
for each processor its raw probe result AND NOT its circuit being open,
refreshes the cache with the reported pair, and treats a probe that
rejected (error or 2s timeout, `probe = none`) as unhealthy. -/
theorem C9_getHealth (now : Int) (cache : HealthCache) (stats1 stats2 : ProcessorStats)
    (probe1 probe2 : Option Bool) :
    (now - cache.last < HEALTH_TTL →
      getHealth now cache stats1 stats2 probe1 probe2 =
        ⟨cache.p1, cache.p2, cache, stats1, stats2, false⟩) ∧
    (HEALTH_TTL ≤ now - cache.last →
      (getHealth now cache stats1 stats2 probe1 probe2).probed = true ∧
      (getHealth now cache stats1 stats2 probe1 probe2).p1 =
        (probe1.getD false && !(isCircuitOpen now stats1).1) ∧
      (getHealth now cache stats1 stats2 probe1 probe2).p2 =
        (probe2.getD false && !(isCircuitOpen now stats2).1) ∧
      (getHealth now cache stats1 stats2 probe1 probe2).cache =
        ⟨now, (getHealth now cache stats1 stats2 probe1 probe2).p1,
          (getHealth now cache stats1 stats2 probe1 probe2).p2⟩ ∧
      (probe1 = none → (getHealth now cache stats1 stats2 probe1 probe2).p1 = false) ∧
      (probe2 = none → (getHealth now cache stats1 stats2 probe1 probe2).p2 = false)) := by
  constructor
  · intro h
    simp [getHealth, h]
  · intro h
    have h' : ¬ (now - cache.last < HEALTH_TTL) := by omega
    refine ⟨by simp [getHealth, h'], ?_, ?_, by simp [getHealth, h'], ?_, ?_⟩
    · cases hgd : probe1.getD false <;> simp [getHealth, h', hgd]
    · cases hgd : probe2.getD false <;> simp [getHealth, h', hgd]
    · intro hnone; simp [getHealth, h', hnone]
    · intro hnone; simp [getHealth, h', hnone]

/-- Witness for C9: a fresh cache is returned untouched, and a stale cache
triggers a probe whose reported health combines the probe with the
breaker; a timed-out probe reads as unhealthy. -/
theorem C9_getHealth_witness :
    getHealth 0 ⟨0, true, false⟩ ⟨1, 0, false⟩ ⟨2, 0, false⟩ (some false) none =
      ⟨true, false, ⟨0, true, false⟩, ⟨1, 0, false⟩, ⟨2, 0, false⟩, false⟩ ∧
    (getHealth 10000 ⟨0, true, false⟩ ⟨1, 0, false⟩ ⟨2, 0, false⟩ (some true) none).probed
      = true ∧
    (getHealth 10000 ⟨0, true, false⟩ ⟨1, 0, false⟩ ⟨2, 0, false⟩ (some true) none).p1 =
      ((some true).getD false && !(isCircuitOpen 10000 ⟨1, 0, false⟩).1) ∧
    (getHealth 10000 ⟨0, true, false⟩ ⟨1, 0, false⟩ ⟨2, 0, false⟩ (some true) none).p2
      = false := by
  have h1 := (C9_getHealth 0 ⟨0, true, false⟩ ⟨1, 0, false⟩ ⟨2, 0, false⟩
    (some false) none).1 (by norm_num [HEALTH_TTL])
  have h2 := (C9_getHealth 10000 ⟨0, true, false⟩ ⟨1, 0, false⟩ ⟨2, 0, false⟩
    (some true) none).2 (by norm_num [HEALTH_TTL])
  exact ⟨h1, h2.1, h2.2.1, h2.2.2.2.2.2 rfl⟩

/-- C4 (amended): a request that settles directly replies with the
downstream status code (`result.status || 200` — not necessarily 200) and
the downstream response body; a deferred request replies
`200 {correlationId, queueId, status:"queued"}`; the both-unhealthy-and-
queue-full pre-check and a queue-full enqueue failure reply 500 with an
error body. -/
theorem C4_response_codes (now : Int) (requestedAt : String) (probe1 probe2 : Option Bool)
    (oracle1 oracle2 : Nat → FetchOutcome) (genId correlationId : String) (amount : Int)
    (st0 : AppState) (g : HealthOutcome) (r1 r2 : MakeRequestResult)
    (hg : g = getHealth now st0.healthCache st0.processor1Stats st0.processor2Stats
      probe1 probe2)
    (hr1 : r1 = makeRequest oracle1 now g.stats1)
    (hr2 : r2 = makeRequest oracle2 now g.stats2) :
    ((g.p1 = false ∧ g.p2 = false ∧ QUEUE_MAX_SIZE ≤ st0.queue.paymentQueue.length) →
      (paymentsPost now requestedAt probe1 probe2 oracle1 oracle2 genId correlationId
        amount st0).code = 500 ∧
      (paymentsPost now requestedAt probe1 probe2 oracle1 oracle2 genId correlationId
        amount st0).body = .overloaded correlationId) ∧
    (¬ (g.p1 = false ∧ g.p2 = false ∧ QUEUE_MAX_SIZE ≤ st0.queue.paymentQueue.length) →
      g.p1 = true → r1.success = true →
      (paymentsPost now requestedAt probe1 probe2 oracle1 oracle2 genId correlationId
        amount st0).code = statusOrDefault r1.status ∧
      (paymentsPost now requestedAt probe1 probe2 oracle1 oracle2 genId correlationId
        amount st0).body = .downstream r1.response) ∧
    (¬ (g.p1 = false ∧ g.p2 = false ∧ QUEUE_MAX_SIZE ≤ st0.queue.paymentQueue.length) →
      (g.p1 = false ∨ r1.success = false) → g.p2 = true → r2.success = true →
      (paymentsPost now requestedAt probe1 probe2 oracle1 oracle2 genId correlationId
        amount st0).code = statusOrDefault r2.status ∧
      (paymentsPost now requestedAt probe1 probe2 oracle1 oracle2 genId correlationId
        amount st0).body = .downstream r2.response) ∧
    (¬ (g.p1 = false ∧ g.p2 = false ∧ QUEUE_MAX_SIZE ≤ st0.queue.paymentQueue.length) →
      (g.p1 = false ∨ r1.success = false) → (g.p2 = false ∨ r2.success = false) →
      st0.queue.paymentQueue.length < QUEUE_MAX_SIZE →
      (paymentsPost now requestedAt probe1 probe2 oracle1 oracle2 genId correlationId
        amount st0).code = 200 ∧
      (paymentsPost now requestedAt probe1 probe2 oracle1 oracle2 genId correlationId
        amount st0).body = .queued correlationId genId) ∧
    (¬ (g.p1 = false ∧ g.p2 = false ∧ QUEUE_MAX_SIZE ≤ st0.queue.paymentQueue.length) →
      (g.p1 = false ∨ r1.success = false) → (g.p2 = false ∨ r2.success = false) →
      QUEUE_MAX_SIZE ≤ st0.queue.paymentQueue.length →
      (paymentsPost now requestedAt probe1 probe2 oracle1 oracle2 genId correlationId
        amount st0).code = 500 ∧
      (paymentsPost now requestedAt probe1 probe2 oracle1 oracle2 genId correlationId
        amount st0).body = .queueFullError correlationId) := by
  subst hg
  subst hr1
  subst hr2
  refine ⟨?_, ?_, ?_, ?_, ?_⟩
  · intro hov
    simp [paymentsPost, hov]
  · intro hnov hp1 hs1
    simp [paymentsPost, hnov, hp1, hs1]
  · intro hnov hfail1 hp2 hs2
    rcases hfail1 with h | h <;>
      simp [paymentsPost, hnov, h, hp2, hs2, apply_ite]
  · intro hnov hfail1 hfail2 hlen
    have h' : ¬ QUEUE_MAX_SIZE ≤ st0.queue.paymentQueue.length := by omega
    cases hb1 : (getHealth now st0.healthCache st0.processor1Stats st0.processor2Stats
        probe1 probe2).p1 with
    | false =>
      cases hb2 : (getHealth now st0.healthCache st0.processor1Stats st0.processor2Stats
          probe1 probe2).p2 with
      | false => simp [paymentsPost, queuePayment, hnov, hb1, hb2, h']
      | true =>
        have hs2 := hfail2.resolve_left (by simp [hb2])
        simp [paymentsPost, queuePayment, hnov, hb1, hb2, hs2, h']
    | true =>
      have hs1 := hfail1.resolve_left (by simp [hb1])
      cases hb2 : (getHealth now st0.healthCache st0.processor1Stats st0.processor2Stats
          probe1 probe2).p2 with
      | false => simp [paymentsPost, queuePayment, hnov, hb1, hb2, hs1, h']
      | true =>
        have hs2 := hfail2.resolve_left (by simp [hb2])
        simp [paymentsPost, queuePayment, hnov, hb1, hb2, hs1, hs2, h']
  · intro hnov hfail1 hfail2 hlen
    cases hb1 : (getHealth now st0.healthCache st0.processor1Stats st0.processor2Stats
        probe1 probe2).p1 with
    | false =>
      cases hb2 : (getHealth now st0.healthCache st0.processor1Stats st0.processor2Stats
          probe1 probe2).p2 with
      | false => exact absurd ⟨hb1, hb2, hlen⟩ hnov
      | true =>
        have hs2 := hfail2.resolve_left (by simp [hb2])
        simp [paymentsPost, queuePayment, hnov, hb1, hb2, hs2, hlen]
    | true =>
      have hs1 := hfail1.resolve_left (by simp [hb1])
      cases hb2 : (getHealth now st0.healthCache st0.processor1Stats st0.processor2Stats
          probe1 probe2).p2 with
      | false => simp [paymentsPost, queuePayment, hnov, hb1, hb2, hs1, hlen]
      | true =>
        have hs2 := hfail2.resolve_left (by simp [hb2])
        simp [paymentsPost, queuePayment, hnov, hb1, hb2, hs1, hs2, hlen]

/-- Witness for C4 covering the direct-settlement and deferred branches at
concrete inputs. -/
theorem C4_response_codes_witness :
    ((paymentsPost 0 "t" none none (fun _ => FetchOutcome.resp 200 "ok")
      (fun _ => FetchOutcome.resp 200 "ok") "g1" "cid" 10
      ⟨⟨0, true, false⟩, ⟨0, 0, false⟩, ⟨0, 0, false⟩, ⟨[], false, 0, ⟨0, 0, 0, 0⟩⟩,
        []⟩).code =
      statusOrDefault (makeRequest (fun _ => FetchOutcome.resp 200 "ok") 0
        (getHealth 0 ⟨0, true, false⟩ ⟨0, 0, false⟩ ⟨0, 0, false⟩ none none).stats1).status ∧
    (paymentsPost 0 "t" none none (fun _ => FetchOutcome.resp 200 "ok")
      (fun _ => FetchOutcome.resp 200 "ok") "g1" "cid" 10
      ⟨⟨0, true, false⟩, ⟨0, 0, false⟩, ⟨0, 0, false⟩, ⟨[], false, 0, ⟨0, 0, 0, 0⟩⟩,
        []⟩).body =
      ReplyBody.downstream (makeRequest (fun _ => FetchOutcome.resp 200 "ok") 0
        (getHealth 0 ⟨0, true, false⟩ ⟨0, 0, false⟩ ⟨0, 0, false⟩ none none).stats1).response) ∧
    ((paymentsPost 0 "t" none none (fun _ => FetchOutcome.netError)
      (fun _ => FetchOutcome.netError) "g2" "cid" 10
      ⟨⟨0, false, false⟩, ⟨0, 0, false⟩, ⟨0, 0, false⟩, ⟨[], false, 0, ⟨0, 0, 0, 0⟩⟩,
        []⟩).code = 200 ∧
    (paymentsPost 0 "t" none none (fun _ => FetchOutcome.netError)
      (fun _ => FetchOutcome.netError) "g2" "cid" 10
      ⟨⟨0, false, false⟩, ⟨0, 0, false⟩, ⟨0, 0, false⟩, ⟨[], false, 0, ⟨0, 0, 0, 0⟩⟩,
        []⟩).body = ReplyBody.queued "cid" "g2") := by
  constructor
  · exact (C4_response_codes 0 "t" none none (fun _ => FetchOutcome.resp 200 "ok")
      (fun _ => FetchOutcome.resp 200 "ok") "g1" "cid" 10
      ⟨⟨0, true, false⟩, ⟨0, 0, false⟩, ⟨0, 0, false⟩, ⟨[], false, 0, ⟨0, 0, 0, 0⟩⟩, []⟩
      _ _ _ rfl rfl rfl).2.1 (by decide) (by decide) (by decide)
  · exact (C4_response_codes 0 "t" none none (fun _ => FetchOutcome.netError)
      (fun _ => FetchOutcome.netError) "g2" "cid" 10
      ⟨⟨0, false, false⟩, ⟨0, 0, false⟩, ⟨0, 0, false⟩, ⟨[], false, 0, ⟨0, 0, 0, 0⟩⟩, []⟩
      _ _ _ rfl rfl rfl).2.2.2.1 (by decide) (by decide) (by decide) (by decide)

/-- C4 counterexample to the claim as stated: a request settled directly
against a processor that answered 201 is replied with status 201 — the
downstream status — not 200; the settlement was registered (the ledger
grew), so this is a direct settlement. -/
theorem C4_counterexample :
    (paymentsPost 0 "t" none none (fun _ => FetchOutcome.resp 201 "created")
      (fun _ => FetchOutcome.resp 201 "created") "g1" "cid" 10
      ⟨⟨0, true, false⟩, ⟨0, 0, false⟩, ⟨0, 0, false⟩, ⟨[], false, 0, ⟨0, 0, 0, 0⟩⟩,
        []⟩).code = 201 ∧
    (paymentsPost 0 "t" none none (fun _ => FetchOutcome.resp 201 "created")
      (fun _ => FetchOutcome.resp 201 "created") "g1" "cid" 10
      ⟨⟨0, true, false⟩, ⟨0, 0, false⟩, ⟨0, 0, false⟩, ⟨[], false, 0, ⟨0, 0, 0, 0⟩⟩,
        []⟩).body = ReplyBody.downstream (some "created") ∧
    (paymentsPost 0 "t" none none (fun _ => FetchOutcome.resp 201 "created")
      (fun _ => FetchOutcome.resp 201 "created") "g1" "cid" 10
      ⟨⟨0, true, false⟩, ⟨0, 0, false⟩, ⟨0, 0, false⟩, ⟨[], false, 0, ⟨0, 0, 0, 0⟩⟩,
        []⟩).state.ledger = [("payment:undefined", ⟨"default", 10, none, 0⟩)] :=
  ⟨rfl, rfl, rfl⟩

/-- C1: evaluation of the handler at the failing input.  Two successive
`POST /payments` requests with distinct correlationIds "a" and "b" both
settle directly, but the source calls `registerPayment('default', amount)`
without the `correlationId` argument, so both writes target the single key
`payment:undefined`: the second write is skipped as an already-registered
duplicate, the final ledger holds exactly one record (amount 10 — payment
"b" is lost), and no record exists under `payment:a` or `payment:b`,
contradicting one-Settlement-per-correlationId. -/
theorem C1_registerPayment_missing_correlationId :
    let st0 : AppState := ⟨⟨0, true, false⟩, ⟨0, 0, false⟩, ⟨0, 0, false⟩,
      ⟨[], false, 0, ⟨0, 0, 0, 0⟩⟩, []⟩
    let ok : Nat → FetchOutcome := fun _ => .resp 200 "ok"
    let out1 := paymentsPost 0 "t1" none none ok ok "g1" "a" 10 st0
    let out2 := paymentsPost 0 "t2" none none ok ok "g2" "b" 20 out1.state
    out1.code = 200 ∧ out2.code = 200 ∧
    out2.state.ledger = [("payment:undefined", ⟨"default", 10, none, 0⟩)] ∧
    out2.state.ledger.lookup "payment:a" = none ∧
    out2.state.ledger.lookup "payment:b" = none :=
  ⟨rfl, rfl, rfl, rfl, rfl⟩

end Rinha2025
